import Mathlib

/-!
Shallow embedding of `canbus_reader.py` (class `CANBusReader`).

Modelling conventions:
* Python dict/list fields become Lean lists; the `messages` dict keeps
  insertion order, matching CPython dict iteration order.
* The transport (`can.interface.Bus`, `bus.set_filters`, `bus.send`,
  `bus.recv`) is an external collaborator; each operation takes the
  transport outcomes as explicit `Except String Unit` / event-list
  parameters (`.error e` models an exception with text `e` raised at that
  call site, which the Python code catches).
* Calls issued to the transport are returned as an explicit trace
  (`List TransportCall`) so that "exactly one bulk filter update" style
  properties are statable.
* Wall-clock readings (`time.time()`) are a `now : Nat` parameter;
  timeouts are abstracted by the finite list of receive events observed
  within the polling window.
-/

namespace Canbus

/-- Embeds `CANMessageType` (enum). -/
inductive CANMessageType
  | standard
  | extended
  | remote
  | error
  | overload
deriving DecidableEq, Repr

/-- Embeds the `CANMessage` dataclass. -/
structure CANMessage where
  can_id : Nat
  data : List Nat
  message_type : CANMessageType
  name : String
  description : String
  dlc : Nat := 8
  is_rx : Bool := true
  is_tx : Bool := false
  timestamp : Option Nat := none
  channel : String := "can0"
deriving DecidableEq, Repr

/-- Embeds the `CANFilter` dataclass. -/
structure CANFilter where
  can_id : Nat
  can_mask : Nat
  extended : Bool := false
deriving DecidableEq, Repr

/-- Embeds the `self.stats` dictionary. -/
structure Stats where
  total_messages : Nat
  received_messages : Nat
  transmitted_messages : Nat
  error_messages : Nat
  filtered_messages : Nat
  connection_errors : Nat
  last_error : Option String
deriving DecidableEq, Repr

/-- The mutable per-reader state of `CANBusReader` that the modelled
operations read and write.  `notifier` and `bus` are `Option Unit`
handles (held / released). -/
structure ReaderState where
  is_connected : Bool
  notifier : Option Unit
  bus : Option Unit
  filters : List CANFilter
  messages : List (String × CANMessage)
  stats : Stats
  health_status : String
  last_health_check : Option Nat
  last_read_time : Option Nat
  monitor_running : Bool
  channel : String
deriving DecidableEq, Repr

/-- `self.stats` as initialised in `__init__`. -/
def init_stats : Stats :=
  { total_messages := 0, received_messages := 0, transmitted_messages := 0,
    error_messages := 0, filtered_messages := 0, connection_errors := 0,
    last_error := none }

/-- Reader state as initialised in `__init__` (registry and filter set
start empty, disconnected, health unknown). -/
def init_state (channel : String) : ReaderState :=
  { is_connected := false, notifier := none, bus := none, filters := [],
    messages := [], stats := init_stats, health_status := "unknown",
    last_health_check := none, last_read_time := none,
    monitor_running := false, channel := channel }

/-- Embeds `add_filter`: appends a new `CANFilter` to `self.filters`. -/
def add_filter (fs : List CANFilter) (can_id can_mask : Nat)
    (extended : Bool) : List CANFilter :=
  fs ++ [{ can_id := can_id, can_mask := can_mask, extended := extended }]

/-- Embeds `remove_filter`: keeps the filters that do NOT match the
given (id, mask, extended) triple exactly. -/
def remove_filter (fs : List CANFilter) (can_id can_mask : Nat)
    (extended : Bool) : List CANFilter :=
  fs.filter (fun f =>
    !(f.can_id == can_id && f.can_mask == can_mask && f.extended == extended))

/-- Embeds `add_message`: dict insert/overwrite by `name` (an existing
key keeps its position, a new key is appended — CPython dict semantics). -/
def add_message (msgs : List (String × CANMessage)) (m : CANMessage) :
    List (String × CANMessage) :=
  if msgs.any (fun p => p.1 == m.name) then
    msgs.map (fun p => if p.1 == m.name then (p.1, m) else p)
  else
    msgs ++ [(m.name, m)]

/-- A call issued to the transport collaborator. -/
inductive TransportCall
  | openBus
  | setFiltersCall (rules : List CANFilter)
  | sendCall
deriving DecidableEq, Repr

/-- Recognizer for bulk filter updates in a transport trace. -/
def TransportCall.isSetFilters : TransportCall → Bool
  | .setFiltersCall _ => true
  | _ => false

/-- Embeds `connect`.  `openR` is the outcome of `can.interface.Bus(...)`
and `setFR` the outcome of `self.bus.set_filters(...)`; an `.error e`
models the exception (text `e`) caught by the surrounding `except`.
Returns the new state, the boolean result, and the transport trace. -/
def connect (st : ReaderState) (openR setFR : Except String Unit) :
    ReaderState × Bool × List TransportCall :=
  if st.is_connected then (st, true, [])
  else
    match openR with
    | .error e =>
      ({ st with is_connected := false,
                 stats := { st.stats with
                   connection_errors := st.stats.connection_errors + 1,
                   last_error := some e } },
       false, [.openBus])
    | .ok _ =>
      if st.filters.isEmpty then
        ({ st with bus := some (), is_connected := true,
                   stats := { st.stats with
                     connection_errors := 0, last_error := none } },
         true, [.openBus])
      else
        match setFR with
        | .error e =>
          ({ st with bus := some (), is_connected := false,
                     stats := { st.stats with
                       connection_errors := st.stats.connection_errors + 1,
                       last_error := some e } },
           false, [.openBus, .setFiltersCall st.filters])
        | .ok _ =>
          ({ st with bus := some (), is_connected := true,
                     stats := { st.stats with
                       connection_errors := 0, last_error := none } },
           true, [.openBus, .setFiltersCall st.filters])

/-- Embeds `disconnect`'s bus-teardown tail: `if self.bus: self.bus.shutdown();
self.bus = None` then `self.is_connected = False`.  `busR` is the outcome of
`bus.shutdown()`; when it raises, the surrounding `except` catches the error,
so the assignments after the raise never run. -/
def disconnect_bus (st : ReaderState) (busR : Except String Unit) :
    ReaderState :=
  match st.bus, busR with
  | some _, .error _ => st
  | some _, .ok _ => { st with bus := none, is_connected := false }
  | none, _ => { st with is_connected := false }

/-- Embeds `disconnect`.  First `stop_monitoring()` (clears the monitor
flag; `Thread.join` does not raise), then `notifier.stop()` (outcome
`notifR`) releasing the notifier, then the bus teardown.  Any raised
teardown error is caught by the `except` clause, skipping the remaining
statements of the `try` block. -/
def disconnect (st : ReaderState) (notifR busR : Except String Unit) :
    ReaderState :=
  match st.notifier, notifR with
  | some _, .error _ => { st with monitor_running := false }
  | some _, .ok _ =>
      disconnect_bus { st with monitor_running := false, notifier := none } busR
  | none, _ => disconnect_bus { st with monitor_running := false } busR

/-- Embeds `send_message`.  `sendR` is the outcome of `self.bus.send(...)`
(the wire-frame construction and send inside the `try` block). -/
def send_message (st : ReaderState) (openR setFR sendR : Except String Unit)
    (m : CANMessage) : ReaderState × Bool × List TransportCall :=
  let c := if st.is_connected then (st, true, ([] : List TransportCall))
           else connect st openR setFR
  if c.2.1 then
    match sendR with
    | .ok _ =>
      ({ c.1 with stats := { c.1.stats with
           transmitted_messages := c.1.stats.transmitted_messages + 1,
           total_messages := c.1.stats.total_messages + 1 } },
       true, c.2.2 ++ [.sendCall])
    | .error e =>
      ({ c.1 with stats := { c.1.stats with last_error := some e } },
       false, c.2.2 ++ [.sendCall])
  else (c.1, false, c.2.2)

/-- One observed outcome of a `self.bus.recv(timeout=0.1)` poll inside
`read_messages`: a frame, a benign timeout (`None` result or
`can.CanTimeoutError`, which continues the loop), or any other exception
(logged, then `break`). -/
inductive RecvEvent
  | frame (w : CANMessage)
  | timeout
  | recvError (e : String)
deriving DecidableEq, Repr

/-- Uppercase hex digit, as Python's format spec X produces. -/
def hexDigit (n : Nat) : Char :=
  if n < 10 then Char.ofNat (48 + n) else Char.ofNat (55 + n)

/-- Fuel-driven uppercase hex rendering (fuel `n + 1` always suffices). -/
def toHexAux : Nat → Nat → List Char
  | 0, _ => []
  | fuel + 1, n =>
    if n < 16 then [hexDigit n]
    else toHexAux fuel (n / 16) ++ [hexDigit (n % 16)]

/-- Python's format spec X applied to a natural number. -/
def toHex (n : Nat) : String := String.mk (toHexAux (n + 1) n)

/-- The generated default label of a received frame. -/
def default_name (aid : Nat) : String := "msg_" ++ toHex aid

/-- The generated default description of a received frame. -/
def default_description (aid : Nat) : String :=
  "Received message ID 0x" ++ toHex aid

/-- The `CANMessage` that `read_messages` builds from a received wire
frame before registry enrichment.  The wire frame is itself carried as a
`CANMessage` (`python-can`'s `Message` has the same fields we use);
`w.timestamp`/`w.channel` play `message.timestamp`/`message.channel`,
with `message.channel or self.channel` modelled on the state's channel. -/
def mk_received (chDefault : String) (w : CANMessage) : CANMessage :=
  { can_id := w.can_id, data := w.data,
    message_type := if w.message_type == CANMessageType.extended
                    then CANMessageType.extended else CANMessageType.standard,
    name := default_name w.can_id,
    description := default_description w.can_id,
    dlc := w.dlc, is_rx := true, is_tx := false,
    timestamp := w.timestamp,
    channel := if w.channel == "" then chDefault else w.channel }

/-- Embeds the per-frame registry scan in `read_messages`: the first
configured message whose `can_id` matches wins and its name/description
are copied onto the received frame. -/
def enrich (msgs : List (String × CANMessage)) (m : CANMessage) :
    CANMessage :=
  match msgs.find? (fun p => p.2.can_id == m.can_id) with
  | some p => { m with name := p.2.name, description := p.2.description }
  | none => m

/-- Embeds the `while time.time() - start_time < timeout` polling loop of
`read_messages` over the finite list of poll outcomes observed in the
window: frames are converted, counted and enriched; timeouts continue;
any other receive error breaks out of the loop with the messages so far. -/
def read_loop (st : ReaderState) (now : Nat) :
    List RecvEvent → ReaderState × List CANMessage
  | [] => (st, [])
  | .timeout :: rest => read_loop st now rest
  | .recvError _ :: _ => (st, [])
  | .frame w :: rest =>
    let m := enrich st.messages (mk_received st.channel w)
    let st1 := { st with
      stats := { st.stats with
        received_messages := st.stats.received_messages + 1,
        total_messages := st.stats.total_messages + 1 },
      last_read_time := some now }
    let r := read_loop st1 now rest
    (r.1, m :: r.2)

/-- Embeds `read_messages`: an implicit `connect` when disconnected
(empty result if it fails), then the polling loop. -/
def read_messages (st : ReaderState) (openR setFR : Except String Unit)
    (events : List RecvEvent) (now : Nat) : ReaderState × List CANMessage :=
  if st.is_connected then read_loop st now events
  else
    let c := connect st openR setFR
    if c.2.1 then read_loop c.1 now events else (c.1, [])

/-- Embeds `check_health`: returns `False` straight away when
disconnected; otherwise performs the bounded receive probe via
`read_messages` (total — it converts every transport error into a list
result) and reports healthy, stamping the check time. -/
def check_health (st : ReaderState) (openR setFR : Except String Unit)
    (events : List RecvEvent) (now : Nat) : ReaderState × Bool :=
  if !st.is_connected then (st, false)
  else
    let st1 := (read_messages st openR setFR events now).1
    ({ st1 with health_status := "healthy", last_health_check := some now },
     true)

/-- One public operation on the reader, with its transport outcomes. -/
inductive Op
  | opConnect (openR setFR : Except String Unit)
  | opDisconnect (notifR busR : Except String Unit)
  | opSend (openR setFR sendR : Except String Unit) (m : CANMessage)
  | opRead (openR setFR : Except String Unit) (events : List RecvEvent)
      (now : Nat)
  | opCheckHealth (openR setFR : Except String Unit)
      (events : List RecvEvent) (now : Nat)
  | opAddFilter (can_id can_mask : Nat) (extended : Bool)
  | opRemoveFilter (can_id can_mask : Nat) (extended : Bool)
  | opClearFilters
  | opAddMessage (m : CANMessage)

/-- The state transition of each public operation. -/
def step (st : ReaderState) : Op → ReaderState
  | .opConnect o s => (connect st o s).1
  | .opDisconnect n b => disconnect st n b
  | .opSend o s r m => (send_message st o s r m).1
  | .opRead o s ev now => (read_messages st o s ev now).1
  | .opCheckHealth o s ev now => (check_health st o s ev now).1
  | .opAddFilter i msk e => { st with filters := add_filter st.filters i msk e }
  | .opRemoveFilter i msk e =>
      { st with filters := remove_filter st.filters i msk e }
  | .opClearFilters => { st with filters := [] }
  | .opAddMessage m => { st with messages := add_message st.messages m }

/-- The statistics identity claimed invariant. -/
def stats_inv (st : ReaderState) : Prop :=
  st.stats.total_messages =
    st.stats.received_messages + st.stats.transmitted_messages

/-- A value appearing in the `bus_config` dictionary that `connect`
builds (`error_filters`/`can_filters` payloads are opaque lists). -/
inductive ConfigValue
  | vstr (s : String)
  | vnat (n : Nat)
  | vbool (b : Bool)
  | vlist (l : List Nat)
deriving DecidableEq, Repr

/-- The constructor-retained configuration fields used by `connect` when
building `bus_config`.  `timeout` abstracts the float read-timeout. -/
structure ReaderConfig where
  interface : String
  channel : String
  bitrate : Nat
  timeout : Nat
  fd : Bool
  data_bitrate : Nat
  app_name : String
  serial : Option String
  hw_type : Option String
  rx_own_msgs : Bool
  fd_data_bitrate : Option Nat
  log_errors : Bool
  error_filters : List Nat
  serial_number : Option String
  can_filters : List Nat
deriving DecidableEq, Repr

/-- Embeds `__init__`'s handling of the configurable options (defaults
from the signature; `error_filters or []` and `can_filters or []` turn an
absent option into an empty list).  A `none` argument models an option
left unset at construction. -/
def mk_config (serial hw_type : Option String) (fd_data_bitrate : Option Nat)
    (error_filters : Option (List Nat)) (serial_number : Option String)
    (can_filters : Option (List Nat)) : ReaderConfig :=
  { interface := "socketcan", channel := "can0", bitrate := 500000,
    timeout := 1, fd := false, data_bitrate := 2000000,
    app_name := "canbus_reader", serial := serial, hw_type := hw_type,
    rx_own_msgs := false, fd_data_bitrate := fd_data_bitrate,
    log_errors := true, error_filters := error_filters.getD [],
    serial_number := serial_number, can_filters := can_filters.getD [] }

/-- The `bus_config` dictionary before `None` removal: every key with its
(possibly `None`) value, in the order the source writes them. -/
def raw_bus_config (c : ReaderConfig) : List (String × Option ConfigValue) :=
  [("interface", some (.vstr c.interface)),
   ("channel", some (.vstr c.channel)),
   ("bitrate", some (.vnat c.bitrate)),
   ("timeout", some (.vnat c.timeout)),
   ("fd", some (.vbool c.fd)),
   ("data_bitrate", some (.vnat c.data_bitrate)),
   ("app_name", some (.vstr c.app_name)),
   ("serial", c.serial.map .vstr),
   ("hw_type", c.hw_type.map .vstr),
   ("rx_own_msgs", some (.vbool c.rx_own_msgs)),
   ("fd_data_bitrate", c.fd_data_bitrate.map .vnat),
   ("log_errors", some (.vbool c.log_errors)),
   ("error_filters", some (.vlist c.error_filters)),
   ("serial_number", c.serial_number.map .vstr),
   ("can_filters", some (.vlist c.can_filters))]

/-- Embeds the dictionary comprehension removing `None` values:
`bus_config = {k: v for k, v in bus_config.items() if v is not None}`. -/
def bus_config (c : ReaderConfig) : List (String × ConfigValue) :=
  (raw_bus_config c).filterMap (fun p => p.2.map (fun v => (p.1, v)))

/-! Concrete states and inputs used by counterexamples and witnesses. -/

/-- The spec's scenario: `add_filter(0x200, 0x7FF)` then
`remove_filter(0x200, 0x7FF)` starting from the empty registry. -/
def scenario_empty_state : ReaderState :=
  { init_state "can0" with
    filters := remove_filter (add_filter [] 0x200 0x7FF false) 0x200 0x7FF false }

/-- A disconnected reader with one registered filter rule. -/
def one_filter_state : ReaderState :=
  { init_state "can0" with
    filters := [{ can_id := 0x100, can_mask := 0x7FF, extended := false }] }

/-- A disconnected reader whose last health probe reported healthy. -/
def healthy_disconnected : ReaderState :=
  { init_state "can0" with health_status := "healthy" }

/-- A freshly connected reader. -/
def connected_state : ReaderState :=
  { init_state "can0" with is_connected := true, bus := some () }

/-- A connected reader holding a bus handle whose shutdown will fail. -/
def teardown_state : ReaderState :=
  { init_state "can0" with is_connected := true, bus := some () }

/-- A registered message definition (id 0x100, named "rpm"). -/
def rpm_def : CANMessage :=
  { can_id := 0x100, data := [], message_type := .standard,
    name := "rpm", description := "engine speed" }

/-- A connected reader with the "rpm" definition registered. -/
def rpm_state : ReaderState :=
  { init_state "can0" with
    is_connected := true, bus := some (),
    messages := [("rpm", rpm_def)] }

/-- A wire frame carrying identifier 0x100. -/
def rpm_wire : CANMessage :=
  { can_id := 0x100, data := [0, 0, 16, 0, 0, 0, 0, 0],
    message_type := .standard, name := "", description := "",
    timestamp := some 3, channel := "" }

/-- The enriched frame that `read_messages` produces from `rpm_wire`. -/
def rpm_received : CANMessage :=
  enrich rpm_state.messages (mk_received rpm_state.channel rpm_wire)

/-- A message to hand to `send_message` in witnesses. -/
def probe_message : CANMessage :=
  { can_id := 0x42, data := [1, 2], message_type := .standard,
    name := "probe", description := "probe frame" }

/-! ## Claim C1 -/

/-- C1 counterexample: after `add_filter(0x200, 0x7FF)` and
`remove_filter(0x200, 0x7FF)` the filter set is empty, and the next
`connect()` on the disconnected reader does NOT push an empty
(accept-all) filter update — the transport trace is just the bus-open
call and contains no `set_filters` call at all. -/
theorem C1_empty_set_no_filter_push :
    (connect scenario_empty_state (.ok ()) (.ok ())).2.2 =
      [TransportCall.openBus] ∧
    TransportCall.setFiltersCall [] ∉
      (connect scenario_empty_state (.ok ()) (.ok ())).2.2 := by
  decide

/-- C1 (amended): `connect()` on a disconnected reader whose bus opens
successfully issues exactly one bulk `set_filters` call carrying exactly
the currently registered rules when the registered set is non-empty, and
issues no `set_filters` call at all when the registered set is empty. -/
theorem C1_bulk_filter_update (st : ReaderState) (setFR : Except String Unit)
    (hdis : st.is_connected = false) :
    (connect st (.ok ()) setFR).2.2.filter TransportCall.isSetFilters =
      if st.filters.isEmpty then []
      else [TransportCall.setFiltersCall st.filters] := by
  unfold connect
  rw [hdis]
  cases hf : st.filters.isEmpty with
  | true => simp [hf, TransportCall.isSetFilters]
  | false => cases setFR <;> simp [hf, TransportCall.isSetFilters]

/-- C1 witness: a disconnected reader with one registered rule pushes
exactly that rule set in a single bulk update. -/
theorem C1_bulk_filter_update_witness :
    (connect one_filter_state (.ok ()) (.ok ())).2.2.filter
        TransportCall.isSetFilters =
      [TransportCall.setFiltersCall
        [{ can_id := 0x100, can_mask := 0x7FF, extended := false }]] := by
  have h := C1_bulk_filter_update one_filter_state (.ok ()) rfl
  simpa [one_filter_state, init_state] using h

/-! ## Claim C2 -/

/-- C2 counterexample: when the original filter set already contains the
triple, `add_filter` then `remove_filter` with that identical triple does
NOT restore the original set — `remove_filter` deletes every matching
occurrence, including the pre-existing one. -/
theorem C2_roundtrip_counterexample :
    remove_filter
        (add_filter [{ can_id := 1, can_mask := 2, extended := false }] 1 2 false)
        1 2 false ≠
      [{ can_id := 1, can_mask := 2, extended := false }] := by
  decide

/-- C2 (amended): if the original filter set contains no rule equal to
the (id, mask, extended) triple, then `add_filter` followed by
`remove_filter` with that identical triple restores the original set. -/
theorem C2_add_remove_roundtrip (fs : List CANFilter) (can_id can_mask : Nat)
    (extended : Bool)
    (h : ({ can_id := can_id, can_mask := can_mask, extended := extended } :
            CANFilter) ∉ fs) :
    remove_filter (add_filter fs can_id can_mask extended)
        can_id can_mask extended = fs := by
  have hall : ∀ f ∈ fs,
      (!(f.can_id == can_id && f.can_mask == can_mask &&
         f.extended == extended)) = true := by
    intro f hf
    obtain ⟨a, b, c⟩ := f
    show (!(a == can_id && b == can_mask && c == extended)) = true
    cases hb : (a == can_id && b == can_mask && c == extended) with
    | false => rfl
    | true =>
      exfalso
      rw [Bool.and_eq_true, Bool.and_eq_true] at hb
      obtain ⟨⟨h1, h2⟩, h3⟩ := hb
      rw [beq_iff_eq] at h1 h2 h3
      subst h1; subst h2; subst h3
      exact h hf
  unfold add_filter remove_filter
  rw [List.filter_append, List.filter_eq_self.mpr hall]
  simp

/-- C2 witness: round-trip on a set not containing the triple. -/
theorem C2_add_remove_roundtrip_witness :
    remove_filter
        (add_filter [{ can_id := 5, can_mask := 6, extended := true }] 1 2 false)
        1 2 false =
      [{ can_id := 5, can_mask := 6, extended := true }] :=
  C2_add_remove_roundtrip _ 1 2 false (by decide)

/-! ## Claim C3 -/

/-- C3 counterexample: a disconnected reader whose previous probe left
`health_status = "healthy"` gets `False` back from `check_health`, but
the stored health state is NOT set to unhealthy — it stays "healthy". -/
theorem C3_health_state_counterexample :
    (check_health healthy_disconnected (.ok ()) (.ok ()) [] 5).2 = false ∧
    (check_health healthy_disconnected (.ok ()) (.ok ()) [] 5).1.health_status ≠
      "unhealthy" ∧
    (check_health healthy_disconnected (.ok ()) (.ok ()) [] 5).1.health_status =
      "healthy" := by
  decide

/-- C3 (amended): `check_health()` on a disconnected reader returns
`False` and performs no side effects at all — the whole reader state,
including the stored health status and check timestamp, is unchanged
(it is not set to unhealthy). -/
theorem C3_disconnected_check_health (st : ReaderState)
    (openR setFR : Except String Unit) (events : List RecvEvent) (now : Nat)
    (h : st.is_connected = false) :
    check_health st openR setFR events now = (st, false) := by
  unfold check_health
  rw [h]
  simp

/-- C3 witness: the freshly constructed (disconnected) reader. -/
theorem C3_disconnected_check_health_witness :
    check_health (init_state "can0") (.ok ()) (.ok ()) [] 0 =
      (init_state "can0", false) :=
  C3_disconnected_check_health (init_state "can0") (.ok ()) (.ok ()) [] 0 rfl

/-! ## Helper lemmas shared across claims -/

/-- `connect` issues exactly one bus-open call, never a send call, and
does not touch the transmit counter, when starting disconnected. -/
theorem connect_trace_aux (st : ReaderState) (o s : Except String Unit)
    (h : st.is_connected = false) :
    (connect st o s).2.2.count TransportCall.openBus = 1 ∧
    TransportCall.sendCall ∉ (connect st o s).2.2 := by
  unfold connect
  rw [h]
  cases o with
  | error e => simp
  | ok u =>
    cases hf : st.filters.isEmpty with
    | true => simp [hf]
    | false => cases s <;> simp [hf]

/-- `connect` never changes the message counters. -/
theorem connect_counters_aux (st : ReaderState) (o s : Except String Unit) :
    (connect st o s).1.stats.total_messages = st.stats.total_messages ∧
    (connect st o s).1.stats.received_messages =
      st.stats.received_messages ∧
    (connect st o s).1.stats.transmitted_messages =
      st.stats.transmitted_messages := by
  unfold connect
  cases hc : st.is_connected <;> cases o <;>
    cases hf : st.filters.isEmpty <;> cases s <;> simp [hf]

/-! ## Claim C4 -/

/-- C4: `send_message` on a disconnected reader makes exactly one
implicit connect attempt (one bus-open call); if that attempt fails the
call returns failure, no transport send occurs, and the transmitted
counter is unchanged. -/
theorem C4_send_implicit_connect (st : ReaderState)
    (o s r : Except String Unit) (m : CANMessage)
    (hdis : st.is_connected = false)
    (hfail : (connect st o s).2.1 = false) :
    (send_message st o s r m).2.1 = false ∧
    TransportCall.sendCall ∉ (send_message st o s r m).2.2 ∧
    (send_message st o s r m).2.2.count TransportCall.openBus = 1 ∧
    (send_message st o s r m).1.stats.transmitted_messages =
      st.stats.transmitted_messages := by
  have htr := connect_trace_aux st o s hdis
  have hct := connect_counters_aux st o s
  unfold send_message
  rw [hdis]
  simp only [Bool.false_eq_true, if_false, hfail]
  exact ⟨trivial, htr.2, htr.1, hct.2.2⟩

/-- C4 witness: fresh reader, bus open fails with "no device". -/
theorem C4_send_implicit_connect_witness :
    (send_message (init_state "can0") (.error "no device") (.ok ()) (.ok ())
        probe_message).2.1 = false ∧
    TransportCall.sendCall ∉
      (send_message (init_state "can0") (.error "no device") (.ok ()) (.ok ())
        probe_message).2.2 ∧
    (send_message (init_state "can0") (.error "no device") (.ok ()) (.ok ())
        probe_message).2.2.count TransportCall.openBus = 1 ∧
    (send_message (init_state "can0") (.error "no device") (.ok ()) (.ok ())
        probe_message).1.stats.transmitted_messages =
      (init_state "can0").stats.transmitted_messages :=
  C4_send_implicit_connect (init_state "can0") (.error "no device") (.ok ())
    (.ok ()) probe_message rfl (by decide)

/-! ## Claim C5 -/

/-- C5: `connect()` is idempotent and total.  Already connected: returns
success immediately with no transport call and no state change.  A fresh
connect that succeeds leaves the reader Connected with the
connection-error counter cleared and last-error erased.  A fresh connect
that fails leaves the reader Disconnected, increments the
connection-error counter by exactly one, records the raised error text in
last-error, and returns false. -/
theorem C5_connect_contract (st : ReaderState)
    (openR setFR : Except String Unit) :
    (st.is_connected = true → connect st openR setFR = (st, true, [])) ∧
    (st.is_connected = false → (connect st openR setFR).2.1 = true →
      ((connect st openR setFR).1.is_connected = true ∧
       (connect st openR setFR).1.stats.connection_errors = 0 ∧
       (connect st openR setFR).1.stats.last_error = none)) ∧
    (st.is_connected = false → (connect st openR setFR).2.1 = false →
      ((connect st openR setFR).1.is_connected = false ∧
       (connect st openR setFR).1.stats.connection_errors =
         st.stats.connection_errors + 1 ∧
       ∃ e, (connect st openR setFR).1.stats.last_error = some e ∧
            (openR = .error e ∨ setFR = .error e))) := by
  refine ⟨fun hc => by simp [connect, hc], ?_, ?_⟩
  · intro hc hr
    cases openR with
    | error e => simp [connect, hc] at hr
    | ok u =>
      cases hf : st.filters.isEmpty with
      | true => simp [connect, hc, hf]
      | false =>
        cases setFR with
        | error e => simp [connect, hc, hf] at hr
        | ok v => simp [connect, hc, hf]
  · intro hc hr
    cases openR with
    | error e =>
      refine ⟨?_, ?_, e, ?_, Or.inl rfl⟩ <;> simp [connect, hc]
    | ok u =>
      cases hf : st.filters.isEmpty with
      | true => simp [connect, hc, hf] at hr
      | false =>
        cases setFR with
        | error e =>
          refine ⟨?_, ?_, e, ?_, Or.inr rfl⟩ <;> simp [connect, hc, hf]
        | ok v => simp [connect, hc, hf] at hr

/-- C5 witness: the success conjunct at an already-connected reader, and
the failure conjunct at a fresh reader whose bus open raises. -/
theorem C5_connect_contract_witness :
    connect connected_state (.ok ()) (.ok ()) = (connected_state, true, []) ∧
    ((connect (init_state "can0") (.error "no device") (.ok ())).1.is_connected
        = false ∧
     (connect (init_state "can0") (.error "no device") (.ok ())).1.stats.connection_errors
        = (init_state "can0").stats.connection_errors + 1 ∧
     ∃ e, (connect (init_state "can0") (.error "no device") (.ok ())).1.stats.last_error
        = some e ∧
        ((.error "no device" : Except String Unit) = .error e ∨
         (.ok () : Except String Unit) = .error e)) :=
  ⟨(C5_connect_contract connected_state (.ok ()) (.ok ())).1 rfl,
   (C5_connect_contract (init_state "can0") (.error "no device")
      (.ok ())).2.2 rfl (by decide)⟩

/-- The receive loop adds one `received` and one `total` per returned
frame and never touches the transmit counter. -/
theorem read_loop_counters_aux (now : Nat) :
    ∀ (events : List RecvEvent) (st : ReaderState),
      (read_loop st now events).1.stats.total_messages =
        st.stats.total_messages + (read_loop st now events).2.length ∧
      (read_loop st now events).1.stats.received_messages =
        st.stats.received_messages + (read_loop st now events).2.length ∧
      (read_loop st now events).1.stats.transmitted_messages =
        st.stats.transmitted_messages := by
  intro events
  induction events with
  | nil => intro st; simp [read_loop]
  | cons ev rest ih =>
    intro st
    cases ev with
    | timeout => simpa [read_loop] using ih st
    | recvError e => simp [read_loop]
    | frame w =>
      have h := ih { st with
        stats := { st.stats with
          received_messages := st.stats.received_messages + 1,
          total_messages := st.stats.total_messages + 1 },
        last_read_time := some now }
      simp only [read_loop, List.length_cons]
      simp only [] at h
      omega

/-- `read_messages` preserves the statistics identity. -/
theorem read_messages_inv_aux (st : ReaderState)
    (o s : Except String Unit) (events : List RecvEvent) (now : Nat)
    (h : stats_inv st) : stats_inv (read_messages st o s events now).1 := by
  unfold read_messages
  cases hc : st.is_connected with
  | true =>
    simp only [if_true]
    have hl := read_loop_counters_aux now events st
    simp only [stats_inv] at *
    omega
  | false =>
    simp only [Bool.false_eq_true, if_false]
    have hcc := connect_counters_aux st o s
    cases hr : (connect st o s).2.1 with
    | true =>
      simp only [if_true]
      have hl := read_loop_counters_aux now events (connect st o s).1
      simp only [stats_inv] at *
      omega
    | false =>
      simp only [Bool.false_eq_true, if_false, stats_inv] at *
      omega

/-- `disconnect` never touches the statistics. -/
theorem disconnect_stats_aux (st : ReaderState)
    (n b : Except String Unit) : (disconnect st n b).stats = st.stats := by
  obtain ⟨ic, ntf, bus, fs, msgs, sts, hs, lhc, lrt, mr, ch⟩ := st
  unfold disconnect disconnect_bus
  cases ntf <;> cases n <;> cases bus <;> cases b <;> simp

/-! ## Claim C6 -/

/-- C6: `total_messages = received_messages + transmitted_messages`
holds at construction (all counters zero) and is preserved by every
operation; moreover a successful send increments transmitted and total
together, and each received frame increments received and total
together. -/
theorem C6_stats_identity :
    (∀ ch, stats_inv (init_state ch)) ∧
    (∀ st op, stats_inv st → stats_inv (step st op)) ∧
    (∀ st (o s : Except String Unit) (m : CANMessage),
      st.is_connected = true →
      (send_message st o s (.ok ()) m).1.stats.transmitted_messages =
          st.stats.transmitted_messages + 1 ∧
      (send_message st o s (.ok ()) m).1.stats.total_messages =
          st.stats.total_messages + 1) ∧
    (∀ st now (w : CANMessage),
      (read_loop st now [RecvEvent.frame w]).1.stats.received_messages =
          st.stats.received_messages + 1 ∧
      (read_loop st now [RecvEvent.frame w]).1.stats.total_messages =
          st.stats.total_messages + 1) := by
  refine ⟨fun ch => rfl, ?_, ?_, ?_⟩
  · intro st op h
    cases op with
    | opConnect o s =>
      have hc := connect_counters_aux st o s
      simp only [step, stats_inv] at *
      omega
    | opDisconnect n b =>
      have hd := disconnect_stats_aux st n b
      simp only [step, stats_inv, hd] at *
      exact h
    | opSend o s r m =>
      simp only [step, send_message]
      cases hc : st.is_connected with
      | true =>
        cases r <;> simp only [if_true, stats_inv] at * <;> omega
      | false =>
        have hcc := connect_counters_aux st o s
        cases hr : (connect st o s).2.1 with
        | true =>
          cases r <;>
            simp only [Bool.false_eq_true, if_false, hr, if_true,
              stats_inv] at * <;> omega
        | false =>
          simp only [Bool.false_eq_true, if_false, hr, stats_inv] at *
          omega
    | opRead o s ev now => exact read_messages_inv_aux st o s ev now h
    | opCheckHealth o s ev now =>
      simp only [step, check_health]
      cases hc : st.is_connected with
      | true =>
        simp only [Bool.not_true, Bool.false_eq_true, if_false]
        have hrm := read_messages_inv_aux st o s ev now h
        simpa [stats_inv] using hrm
      | false => simpa [stats_inv] using h
    | opAddFilter i msk e => simpa [step, stats_inv] using h
    | opRemoveFilter i msk e => simpa [step, stats_inv] using h
    | opClearFilters => simpa [step, stats_inv] using h
    | opAddMessage m => simpa [step, stats_inv] using h
  · intro st o s m hc
    simp [send_message, hc]
  · intro st now w
    simp [read_loop]

/-- C6 witness: the identity holds for the fresh reader, survives a step,
and a successful send on a connected reader bumps both counters. -/
theorem C6_stats_identity_witness :
    stats_inv (step (init_state "can0") (Op.opAddFilter 0x100 0x7FF false)) ∧
    (send_message connected_state (.ok ()) (.ok ()) (.ok ())
        probe_message).1.stats.transmitted_messages =
      connected_state.stats.transmitted_messages + 1 :=
  ⟨C6_stats_identity.2.1 (init_state "can0") (Op.opAddFilter 0x100 0x7FF false)
      (C6_stats_identity.1 "can0"),
   (C6_stats_identity.2.2.1 connected_state (.ok ()) (.ok ())
      probe_message rfl).1⟩

/-- Every frame returned by the receive loop is labeled from the first
registered definition whose identifier matches, or keeps the generated
default label when none matches. -/
theorem read_loop_labeling_aux (now : Nat) :
    ∀ (events : List RecvEvent) (st : ReaderState) (m : CANMessage),
      m ∈ (read_loop st now events).2 →
      (∃ p ∈ st.messages, p.2.can_id = m.can_id ∧
         m.name = p.2.name ∧ m.description = p.2.description) ∨
      ((∀ p ∈ st.messages, p.2.can_id ≠ m.can_id) ∧
         m.name = default_name m.can_id ∧
         m.description = default_description m.can_id) := by
  intro events
  induction events with
  | nil => intro st m hm; simp [read_loop] at hm
  | cons ev rest ih =>
    intro st m hm
    cases ev with
    | timeout => exact ih st m (by simpa [read_loop] using hm)
    | recvError e => simp [read_loop] at hm
    | frame w =>
      simp only [read_loop, List.mem_cons] at hm
      rcases hm with he | hm'
      · subst he
        cases hfind : st.messages.find? (fun p => p.2.can_id == w.can_id) with
        | some p =>
          have hp : p ∈ st.messages := List.mem_of_find?_eq_some hfind
          have hpe := List.find?_some hfind
          rw [beq_iff_eq] at hpe
          left
          refine ⟨p, hp, ?_, ?_, ?_⟩ <;>
            simp [enrich, mk_received, hfind, hpe]
        | none =>
          right
          have hnone := List.find?_eq_none.mp hfind
          refine ⟨?_, ?_, ?_⟩
          · intro p hp
            have hne := hnone p hp
            simp only [beq_iff_eq] at hne
            simpa [enrich, mk_received, hfind] using hne
          · simp [enrich, mk_received, hfind]
          · simp [enrich, mk_received, hfind]
      · exact ih { st with
          stats := { st.stats with
            received_messages := st.stats.received_messages + 1,
            total_messages := st.stats.total_messages + 1 },
          last_read_time := some now } m hm'

/-! ## Claim C7 -/

/-- C7: every frame returned by `read_messages` on a connected reader is
labeled with the name and description of the first registered message
definition whose identifier equals the frame's identifier; when no
registered definition matches, the frame keeps the generated default
label `msg_<ID in hex>` and the default description. -/
theorem C7_frame_labeling (st : ReaderState) (o s : Except String Unit)
    (events : List RecvEvent) (now : Nat) (m : CANMessage)
    (hconn : st.is_connected = true)
    (hm : m ∈ (read_messages st o s events now).2) :
    (∃ p ∈ st.messages, p.2.can_id = m.can_id ∧
       m.name = p.2.name ∧ m.description = p.2.description) ∨
    ((∀ p ∈ st.messages, p.2.can_id ≠ m.can_id) ∧
       m.name = default_name m.can_id ∧
       m.description = default_description m.can_id) := by
  apply read_loop_labeling_aux now events st m
  simpa [read_messages, hconn] using hm

/-- C7 witness: the "rpm" scenario — one frame with id 0x100 comes back
named "rpm" with the definition's description. -/
theorem C7_frame_labeling_witness :
    (∃ p ∈ rpm_state.messages, p.2.can_id = rpm_received.can_id ∧
       rpm_received.name = p.2.name ∧
       rpm_received.description = p.2.description) ∨
    ((∀ p ∈ rpm_state.messages, p.2.can_id ≠ rpm_received.can_id) ∧
       rpm_received.name = default_name rpm_received.can_id ∧
       rpm_received.description = default_description rpm_received.can_id) :=
  C7_frame_labeling rpm_state (.ok ()) (.ok ()) [RecvEvent.frame rpm_wire] 7
    rpm_received rfl
    (by simp [read_messages, read_loop, rpm_state, rpm_received, init_state])

/-! ## Claim C10 -/

/-- C10: with the reader connected, `check_health` can never take its
unhealthy branch: `read_messages` is total (it converts every transport
error during the probe into a plain list result), so the probe always
reports healthy, stamps the check time, and returns `True`, whatever the
receive events were. -/
theorem C10_connected_health (st : ReaderState) (o s : Except String Unit)
    (events : List RecvEvent) (now : Nat) (h : st.is_connected = true) :
    (check_health st o s events now).2 = true ∧
    (check_health st o s events now).1.health_status = "healthy" ∧
    (check_health st o s events now).1.last_health_check = some now := by
  simp [check_health, h]

/-- C10 witness: a connected reader probed straight into a transport
error still reports healthy. -/
theorem C10_connected_health_witness :
    (check_health connected_state (.ok ()) (.ok ())
        [RecvEvent.recvError "transport failure"] 9).2 = true ∧
    (check_health connected_state (.ok ()) (.ok ())
        [RecvEvent.recvError "transport failure"] 9).1.health_status =
      "healthy" ∧
    (check_health connected_state (.ok ()) (.ok ())
        [RecvEvent.recvError "transport failure"] 9).1.last_health_check =
      some 9 :=
  C10_connected_health connected_state (.ok ()) (.ok ())
    [RecvEvent.recvError "transport failure"] 9 rfl

/-! ## Claim C8 -/

/-- C8 counterexample: with every option left unset at construction, the
bus configuration handed to the transport still contains entries for
`error_filters` and `can_filters` — they default to empty lists (via
`error_filters or []`), which are not `None` and therefore survive the
`None`-removal comprehension. -/
theorem C8_empty_list_passthrough :
    ("error_filters", ConfigValue.vlist []) ∈
      bus_config (mk_config none none none none none none) ∧
    ("can_filters", ConfigValue.vlist []) ∈
      bus_config (mk_config none none none none none none) := by
  decide

/-- C8 (amended): options whose unset value is `None` (`serial`,
`hw_type`, `fd_data_bitrate`, `serial_number`) are omitted from the bus
configuration when left unset; but `error_filters` and `can_filters`
left unset default to empty lists and are passed through as (empty)
entries rather than omitted. -/
theorem C8_none_options_omitted (serial hw_type : Option String)
    (fdd : Option Nat) (ef : Option (List Nat)) (sn : Option String)
    (cf : Option (List Nat)) :
    (∀ v, ("serial", v) ∉ bus_config (mk_config none hw_type fdd ef sn cf)) ∧
    (∀ v, ("hw_type", v) ∉ bus_config (mk_config serial none fdd ef sn cf)) ∧
    (∀ v, ("fd_data_bitrate", v) ∉
      bus_config (mk_config serial hw_type none ef sn cf)) ∧
    (∀ v, ("serial_number", v) ∉
      bus_config (mk_config serial hw_type fdd ef none cf)) ∧
    ("error_filters", ConfigValue.vlist []) ∈
      bus_config (mk_config serial hw_type fdd none sn cf) ∧
    ("can_filters", ConfigValue.vlist []) ∈
      bus_config (mk_config serial hw_type fdd ef sn none) := by
  refine ⟨?_, ?_, ?_, ?_, ?_, ?_⟩ <;>
    simp [bus_config, raw_bus_config, mk_config, List.mem_filterMap,
      Option.map_eq_some']

/-- C8 witness: the `error_filters` pass-through at the all-unset
configuration, via the amended theorem. -/
theorem C8_none_options_omitted_witness :
    ("error_filters", ConfigValue.vlist []) ∈
      bus_config (mk_config none none none none none none) :=
  (C8_none_options_omitted none none none none none none).2.2.2.2.1

/-! ## Claim C9 -/

/-- C9 counterexample: a connected reader holding a bus handle whose
`shutdown()` raises: `disconnect()` swallows the error, but the
connection state stays Connected and the bus handle is not released —
the claim's postcondition fails. -/
theorem C9_teardown_error_counterexample :
    (disconnect teardown_state (.ok ()) (.error "shutdown failed")).is_connected
      = true ∧
    (disconnect teardown_state (.ok ()) (.error "shutdown failed")).bus ≠
      none := by
  decide

/-- C9 (amended): `disconnect()` never propagates a teardown error (it
is total); when the teardown operations succeed, the reader ends
Disconnected with the notifier and bus handles released and monitoring
stopped, and a further `disconnect` with any outcomes is a no-op.  When
a teardown operation raises, however, the error is swallowed but the
remaining teardown statements are skipped, so the connection flag and
handles may remain set. -/
theorem C9_disconnect_success (st : ReaderState)
    (r1 r2 : Except String Unit) :
    (disconnect st (.ok ()) (.ok ())).is_connected = false ∧
    (disconnect st (.ok ()) (.ok ())).notifier = none ∧
    (disconnect st (.ok ()) (.ok ())).bus = none ∧
    (disconnect st (.ok ()) (.ok ())).monitor_running = false ∧
    disconnect (disconnect st (.ok ()) (.ok ())) r1 r2 =
      disconnect st (.ok ()) (.ok ()) := by
  obtain ⟨ic, ntf, bus, fs, msgs, sts, hs, lhc, lrt, mr, ch⟩ := st
  cases ntf <;> cases bus <;>
    simp [disconnect, disconnect_bus]

end Canbus
